import Mathlib

/-!
Verification of the orca event manager core (`src/orca/event_manager.py`).

This file shallowly embeds the data model and the operations of the event
ingestion / filtering / flow-control / dispatch pipeline: the event envelope,
the pending queue, the filter (`_ignore`) with its ordered rule chain, the
deduplication check, the flood/deluge flow control with queue pruning, the
suspension gate, the reference-counted listener subscription table, the
dispatch/activation decider, and the enqueue/dequeue scheduling skeleton.

External collaborators (the AT-SPI object-query facade `AXObject` /
`AXUtilities`, the script manager, the focus state in `orca_state`) are
modelled as an environment `Env` of arbitrary read-only functions; the
event manager's own mutable fields are the state `EMState`.

Python string operations (`startswith`, `endswith`, `lower`, membership,
`replace`) are embedded as functions on the character list of a `String`.
Machine integers (`detail1`, `detail2`, listener counts) are embedded as
`Int`. The one place where the filter logic itself can raise (the membership
test `EMBEDDED_OBJECT_CHARACTER in event.any_data`, a `TypeError` whenever
`any_data` is not a string) is embedded with `Except Unit`.
-/

/-- Opaque accessible-object handle; equality is identity. -/
abbrev Source := Nat

/-- Opaque handler ("script") handle; equality is identity. -/
abbrev Script := Nat

/-- Discriminator for the event classes seen by `_enqueue` / `_dequeue`:
`isinstance` checks against `KeyboardEvent`, `BrailleEvent`,
`MouseButtonEvent`; everything else is a plain object event. -/
inductive EventKind where
  | objectEvent
  | mouseButton
  | keyboard
  | braille
deriving DecidableEq

/-- `event.any_data`: either a string payload or an accessible object. -/
inductive Payload where
  | str (s : String)
  | obj (o : Source)
deriving DecidableEq

/-- The Atspi roles that appear in the filter rules. -/
inductive Role where
  | canvas
  | icon
  | listItem
  | list
  | panel
  | sectionRole
  | tableRow
  | tableCell
  | treeItem
  | image
  | menu
  | menuItem
  | pushButton
  | checkBox
  | radioButton
  | splitPane
  | text
  | static
  | filler
  | checkMenuItem
  | radioMenuItem
  | alert
  | animation
  | infoBar
  | notification
  | dialog
  | statusBar
  | toolTip
  | label
  | layeredPane
  | other
deriving DecidableEq

/-- The event envelope: `type` (category string), `source`, the two detail
integers, and the category-specific payload.  `source` is `none` when the
event has no source object. -/
structure Event where
  kind : EventKind
  type : String
  source : Option Source
  detail1 : Int
  detail2 : Int
  any_data : Option Payload
deriving DecidableEq

/-- The subscription table `_scriptListenerCounts`: category -> reference
count (absent categories map to `none`). -/
abbrev Counts := String → Option Int

/-- The event manager's own mutable fields. -/
structure EMState where
  active : Bool
  eventQueue : List Event
  eventsSuspended : Bool
  eventsTriggeringSuspension : List Event
  ignoredEvents : List String
  parentsOfDefunctDescendants : List (Option Source)
  scriptListenerCounts : Counts
  asyncMode : Bool
  gidleScheduled : Bool

/-- External read-only collaborators: `orca_state`, the `AXObject` /
`AXUtilities` query facade, and the script manager.  Every field is an
arbitrary function, so theorems quantified over `Env` hold for every
behaviour of the collaborators. -/
structure Env where
  locusOfFocus : Option Source
  activeWindow : Option Source
  activeScript : Option Script
  desktop : Option Source
  appOf : Option Source → Option Source
  nameOf : Option Source → String
  toolkitName : Option Source → String
  isDead : Option Source → Bool
  isDefunct : Option Source → Bool
  hasNoState : Option Source → Bool
  isFocused : Option Source → Bool
  isFrame : Option Source → Bool
  isWindow : Option Source → Bool
  isDocument : Option Source → Bool
  isTable : Option Source → Bool
  isNotification : Option Source → Bool
  isMenu : Option Source → Bool
  isFocusable : Option Source → Bool
  isPanel : Option Source → Bool
  isModal : Option Source → Bool
  isIconified : Option Source → Bool
  managesDescendants : Option Source → Bool
  isTableRelated : Option Source → Bool
  isTreeRelated : Option Source → Bool
  isSection : Option Source → Bool
  isImage : Option Source → Bool
  isMenuItem : Option Source → Bool
  roleOf : Option Source → Role
  getScript : Option Source → Option Source → Bool → Option Script
  scriptForMouse : Event → Option Script
  scriptIsActivatable : Script → Event → Bool
  scriptForce : Script → Event → Bool
  scriptApp : Script → Option Source

/-- Python `s.startswith(p)`. -/
def pyStartsWith (s p : String) : Bool := p.data.isPrefixOf s.data

/-- Python `s.endswith(p)`. -/
def pyEndsWith (s p : String) : Bool := p.data.isSuffixOf s.data

/-- Python `s.lower()`. -/
def pyLower (s : String) : String := String.mk (s.data.map Char.toLower)

/-- Python truthiness of an `int`. -/
def intTruthy (n : Int) : Bool := n != 0

/-- `EventManager.EMBEDDED_OBJECT_CHARACTER`. -/
def EMBEDDED_OBJECT_CHARACTER : Char := '￼'

/-- `event.any_data == orca_state.locusOfFocus`: an object payload equals
the locus of focus handle; a string payload or an absent locus compares
unequal. -/
def payloadEqFocus (p : Payload) (locus : Option Source) : Bool :=
  match p, locus with
  | .obj o, some x => o == x
  | _, _ => false

/-- `AXObject.is_dead(event.any_data)` for an object payload; a plain string
is not a dead accessible. -/
def payloadIsDead (env : Env) (p : Payload) : Bool :=
  match p with
  | .obj o => env.isDead (some o)
  | .str _ => false

/-- `AXUtilities.is_defunct(event.any_data)` for an object payload. -/
def payloadIsDefunct (env : Env) (p : Payload) : Bool :=
  match p with
  | .obj o => env.isDefunct (some o)
  | .str _ => false

/-- `AXUtilities.is_image(event.any_data)` for an object payload. -/
def payloadIsImage (env : Env) (p : Payload) : Bool :=
  match p with
  | .obj o => env.isImage (some o)
  | .str _ => false

/-- `AXUtilities.is_menu_item(event.any_data)` for an object payload. -/
def payloadIsMenuItem (env : Env) (p : Payload) : Bool :=
  match p with
  | .obj o => env.isMenuItem (some o)
  | .str _ => false

/-- `EventManager._inFlood`: queue size above 50. -/
def _inFlood (s : EMState) : Bool := decide (s.eventQueue.length > 50)

/-- `EventManager._inDeluge`: queue size above 100. -/
def _inDeluge (s : EMState) : Bool := decide (s.eventQueue.length > 100)

/-- The fixed high-volume category list; `_ignoreDuringDeluge` and
`_processDuringFlood` each contain this same literal list. -/
def highVolumeEventTypes : List String :=
  ["object:text-changed:delete",
   "object:text-changed:insert",
   "object:text-changed:delete:system",
   "object:text-changed:insert:system",
   "object:text-attributes-changed",
   "object:text-caret-moved",
   "object:children-changed:add",
   "object:children-changed:add:system",
   "object:children-changed:remove",
   "object:children-changed:remove:system",
   "object:property-change:accessible-name",
   "object:property-change:accessible-description",
   "object:selection-changed",
   "object:state-changed:showing",
   "object:state-changed:sensitive"]

/-- `EventManager._eventSourceIsDead`. -/
def _eventSourceIsDead (env : Env) (event : Event) : Bool :=
  env.isDead event.source

/-- `EventManager._ignoreDuringDeluge`. -/
def _ignoreDuringDeluge (env : Env) (event : Event) : Bool :=
  if _eventSourceIsDead env event then true
  else if !(highVolumeEventTypes.contains event.type) then false
  else event.source != env.locusOfFocus

/-- `EventManager._processDuringFlood`. -/
def _processDuringFlood (env : Env) (event : Event) : Bool :=
  if _eventSourceIsDead env event then false
  else if !(highVolumeEventTypes.contains event.type) then true
  else event.source == env.locusOfFocus

/-- `EventManager._prioritizeDuringFlood`. -/
def _prioritizeDuringFlood (env : Env) (event : Event) : Bool :=
  if pyStartsWith event.type "object:state-changed:focused" then intTruthy event.detail1
  else if pyStartsWith event.type "object:state-changed:selected" then intTruthy event.detail1
  else if pyStartsWith event.type "object:text-selection-changed" then true
  else if pyStartsWith event.type "window:activate" then true
  else if pyStartsWith event.type "window:deactivate" then true
  else if pyStartsWith event.type "object:state-changed:active" then
    env.isFrame event.source || env.isWindow event.source
  else if pyStartsWith event.type "document:load-complete" then true
  else if pyStartsWith event.type "object:state-changed:busy" then true
  else false

/-- `EventManager._pruneEventsDuringFlood`: the queue is drained and the
events passing `_processDuringFlood` are re-queued in their original
order. -/
def _pruneEventsDuringFlood (env : Env) (q : List Event) : List Event :=
  q.filter (fun e => _processDuringFlood env e)

/-- The `isSame` comparison used by `_isDuplicateEvent`: category, source
identity, both detail integers and payload compare equal. -/
def isSame (x event : Event) : Bool :=
  x.type == event.type && x.source == event.source
    && x.detail1 == event.detail1 && x.detail2 == event.detail2
    && x.any_data == event.any_data

/-- `EventManager._isDuplicateEvent`. -/
def _isDuplicateEvent (env : Env) (s : EMState) (event : Event) : Bool :=
  if _inFlood s && _prioritizeDuringFlood env event then false
  else s.eventQueue.any (fun x => isSame x event)

/-- Role list of the `object:property-change:accessible-name` spam rule. -/
def nameSpamRoles : List Role :=
  [.canvas, .icon, .listItem, .list, .panel, .sectionRole, .tableRow,
   .tableCell, .treeItem, .image, .menu, .menuItem]

/-- Role list of the `object:state-changed:showing` allow rule. -/
def showingAllowedRoles : List Role :=
  [.alert, .animation, .infoBar, .menu, .notification, .dialog,
   .statusBar, .toolTip]

/-- Role list of the `object:state-changed:sensitive` spam rule. -/
def sensitiveSpamRoles : List Role :=
  [.menuItem, .menu, .filler, .panel, .checkMenuItem, .radioMenuItem]

/-- The `object:children-changed` / `object:active-descendant-changed`
block at the end of `_ignore` (lines 312-366), including its updates of
`_parentsOfDefunctDescendants`. -/
def childrenChangedBlock (env : Env) (s : EMState) (event : Event) (role : Role) :
    Bool × EMState :=
  if pyStartsWith event.type "object:children-changed"
      || pyStartsWith event.type "object:active-descendant-changed" then
    if role == Role.menu || role == Role.layeredPane || role == Role.menuItem then
      (true, s)
    else
      match event.any_data with
      | none => (true, s)
      | some payload =>
        if pyEndsWith event.type "remove"
            && (payloadEqFocus payload env.locusOfFocus
                || env.isDead env.locusOfFocus) then
          (false, s)
        else if payloadIsDead env payload || payloadIsDefunct env payload then
          if env.managesDescendants event.source
              && !(s.parentsOfDefunctDescendants.contains event.source) then
            (true, { s with parentsOfDefunctDescendants :=
                              s.parentsOfDefunctDescendants ++ [event.source] })
          else (true, s)
        else
          let s1 :=
            if s.parentsOfDefunctDescendants.contains event.source then
              { s with parentsOfDefunctDescendants :=
                         s.parentsOfDefunctDescendants.erase event.source }
            else s
          if payloadIsImage env payload then (true, s1)
          else if pyStartsWith event.type "object:children-changed"
              && payloadIsMenuItem env payload then (true, s1)
          else (false, s1)
  else (false, s)

/-- The pure tail of `_ignore` after the embedded-object-text rule: the
empty-state-set and defunct-source checks, the role battery (lines
221-310), and the children-changed block. -/
def ignoreAfterTextRule (env : Env) (s : EMState) (event : Event) : Bool × EMState :=
  if env.hasNoState event.source then (true, s)
  else if env.isDefunct event.source then (true, s)
  else
    let role := env.roleOf event.source
    if pyStartsWith event.type "object:property-change:accessible-name" then
      if nameSpamRoles.contains role then (true, s)
      else if !(env.isFocused event.source)
          && (role == Role.pushButton || role == Role.checkBox
              || role == Role.radioButton) then (true, s)
      else childrenChangedBlock env s event role
    else if pyStartsWith event.type "object:property-change:accessible-value" then
      if role == Role.splitPane && !(env.isFocused event.source) then (true, s)
      else childrenChangedBlock env s event role
    else if pyStartsWith event.type "object:text-changed:insert"
        && decide (event.detail2 > 1000)
        && (role == Role.text || role == Role.static) then (true, s)
    else if pyStartsWith event.type "object:state-changed:sensitive" then
      if sensitiveSpamRoles.contains role then (true, s)
      else childrenChangedBlock env s event role
    else if pyStartsWith event.type "object:state-changed:selected" then
      if !(intTruthy event.detail1) && role == Role.pushButton then (true, s)
      else childrenChangedBlock env s event role
    else if pyStartsWith event.type "object:state-changed:showing" then
      if !(showingAllowedRoles.contains role) then (true, s)
      else childrenChangedBlock env s event role
    else if pyStartsWith event.type "object:text-caret-moved" then
      if role == Role.label && !(env.isFocused event.source) then (true, s)
      else childrenChangedBlock env s event role
    else if pyStartsWith event.type "object:selection-changed" then
      if s.parentsOfDefunctDescendants.contains event.source then (true, s)
      else if env.isDead event.source then (true, s)
      else childrenChangedBlock env s event role
    else childrenChangedBlock env s event role

/-- `EventManager._ignore`: the ordered, short-circuiting filter chain.
The result is `(shouldIgnore, state)`; the state differs from the input
only in `parentsOfDefunctDescendants`.  The embedded-object-text rule
performs `EMBEDDED_OBJECT_CHARACTER in event.any_data`, which raises a
`TypeError` when `any_data` is not a string; that raise is the `.error`
case. -/
def _ignore (env : Env) (s : EMState) (event : Event) :
    Except Unit (Bool × EMState) :=
  if !s.active then .ok (true, s)
  else if s.ignoredEvents.any (fun p => pyStartsWith event.type p) then .ok (true, s)
  else if env.nameOf (env.appOf event.source) == "gnome-shell"
      && pyStartsWith event.type "object:children-changed:remove" then .ok (true, s)
  else if pyStartsWith event.type "window" then .ok (false, s)
  else if pyStartsWith event.type "mouse:button" then .ok (false, s)
  else if _isDuplicateEvent env s event then .ok (true, s)
  else if pyEndsWith event.type "system"
      && pyStartsWith (pyLower (env.nameOf (env.appOf event.source))) "thunderbird"
      && (env.isTableRelated event.source || env.isTreeRelated event.source
          || env.isSection event.source) then .ok (true, s)
  else if _inDeluge s && _ignoreDuringDeluge env event then .ok (true, s)
  else if (pyStartsWith event.type "object:children-changed"
           || pyStartsWith event.type "object:state-changed:sensitive")
      && (match env.activeScript with
          | none => true
          | some sc => env.scriptApp sc != env.appOf event.source) then .ok (true, s)
  else if pyStartsWith event.type "object:text-changed" then
    match event.any_data with
    | some (.str str) =>
      if str.data.contains EMBEDDED_OBJECT_CHARACTER
          && (str.data.filter (fun c => c != EMBEDDED_OBJECT_CHARACTER)).isEmpty then
        .ok (true, s)
      else .ok (ignoreAfterTextRule env s event)
    | _ => .error ()
  else .ok (ignoreAfterTextRule env s event)

/-- An action performed against the external bus by the subscription
manager. -/
inductive BusAction where
  | subscribe (t : String)
  | unsubscribe (t : String)
deriving DecidableEq

/-- Pointwise update of the subscription table. -/
def updateFn (c : Counts) (t : String) (v : Option Int) : Counts :=
  fun k => if k = t then v else c k

/-- `EventManager.registerListener`: increments the reference count; on
first insertion registers with the external bus. -/
def registerListener (c : Counts) (t : String) : Counts × Option BusAction :=
  match c t with
  | some n => (updateFn c t (some (n + 1)), none)
  | none => (updateFn c t (some 1), some (.subscribe t))

/-- `EventManager.deregisterListener`: decrements the reference count; when
it reaches zero the entry is deleted and the external bus listener is
deregistered.  An absent category is a no-op. -/
def deregisterListener (c : Counts) (t : String) : Counts × Option BusAction :=
  match c t with
  | none => (c, none)
  | some n =>
    if n - 1 = 0 then (updateFn c t none, some (.unsubscribe t))
    else (updateFn c t (some (n - 1)), none)

/-- `_suspendableEvents`. -/
def suspendableEvents : List String :=
  ["object:children-changed:add",
   "object:children-changed:remove",
   "object:state-changed:sensitive",
   "object:state-changed:showing",
   "object:text-changed:delete"]

/-- Deregister each category of a list in order (the loop in
`_suspendEvents`). -/
def deregAll (c : Counts) (ts : List String) : Counts :=
  ts.foldl (fun acc t => (deregisterListener acc t).1) c

/-- Register each category of a list in order (the loop in
`_unsuspendEvents`). -/
def regAll (c : Counts) (ts : List String) : Counts :=
  ts.foldl (fun acc t => (registerListener acc t).1) c

/-- `EventManager._suspendEvents`. -/
def _suspendEvents (s : EMState) (trigger : Event) : EMState :=
  let s1 := { s with eventsTriggeringSuspension :=
                       s.eventsTriggeringSuspension ++ [trigger] }
  if s1.eventsSuspended then s1
  else
    { s1 with
      scriptListenerCounts := deregAll s1.scriptListenerCounts suspendableEvents,
      eventsSuspended := true }

/-- `EventManager._unsuspendEvents`. -/
def _unsuspendEvents (s : EMState) (trigger : Event) (force : Bool) : EMState :=
  let s1 :=
    if s.eventsTriggeringSuspension.contains trigger then
      { s with eventsTriggeringSuspension :=
                 s.eventsTriggeringSuspension.erase trigger }
    else s
  if !s1.eventsSuspended then s1
  else if !s1.eventsTriggeringSuspension.isEmpty && !force then s1
  else
    { s1 with
      scriptListenerCounts := regAll s1.scriptListenerCounts suspendableEvents,
      eventsSuspended := false }

/-- `EventManager._shouldSuspendEventsFor`. -/
def _shouldSuspendEventsFor (env : Env) (event : Event) : Bool :=
  if (env.isFrame event.source
        || (env.isWindow event.source
            && env.toolkitName event.source == "clutter"))
      && (pyStartsWith event.type "window" || pyEndsWith event.type "active") then true
  else if env.isDocument event.source
      && pyEndsWith event.type "busy" && intTruthy event.detail1 then true
  else false

/-- `EventManager._shouldUnsuspendEventsFor`. -/
def _shouldUnsuspendEventsFor (env : Env) (event : Event) : Bool :=
  if pyStartsWith event.type "object:state-changed:focused"
      && intTruthy event.detail1 then true
  else if env.isDocument event.source
      && ((pyEndsWith event.type "busy" && !(intTruthy event.detail1))
          || pyStartsWith event.type "document:load-complete") then true
  else false

/-- `EventManager._didSuspendEventsFor`. -/
def _didSuspendEventsFor (s : EMState) (event : Event) : Bool :=
  s.eventsTriggeringSuspension.contains event

/-- The event-type prefixes for which `_getScriptForEvent` skips the sanity
check. -/
def skipCheckTypes : List String :=
  ["object:children-changed",
   "object:column-reordered",
   "object:row-reordered",
   "object:property-change",
   "object:selection-changed",
   "object:state-changed:checked",
   "object:state-changed:expanded",
   "object:state-changed:indeterminate",
   "object:state-changed:pressed",
   "object:state-changed:selected",
   "object:state-changed:sensitive",
   "object:state-changed:showing",
   "object:text-changed"]

/-- `EventManager._getScriptForEvent`. -/
def _getScriptForEvent (env : Env) (event : Event) : Option Script :=
  if pyStartsWith event.type "mouse:" then env.scriptForMouse event
  else
    let app := env.appOf event.source
    if env.isDefunct app then none
    else
      let check := !(skipCheckTypes.any (fun p => pyStartsWith event.type p))
      env.getScript app event.source check

/-- `EventManager._isActivatableEvent`: the dispatch/activation decider,
first match wins; returns the decision and the debug reason. -/
def _isActivatableEvent (env : Env) (event : Event) (scriptArg : Option Script) :
    Bool × String :=
  if event.source = none then (false, "event.source? What event.source??")
  else
    let script? :=
      match scriptArg with
      | some sc => some sc
      | none => _getScriptForEvent env event
    match script? with
    | none => (false, "There is no script for this event.")
    | some script =>
      if env.activeScript == some script then
        (false, "The script for this event is already active.")
      else if !(env.scriptIsActivatable script event) then
        (false, "The script says not to activate for this event.")
      else if env.scriptForce script event then
        (true, "The script insists it should be activated for this event.")
      else
        let windowActivation :=
          if pyStartsWith event.type "window:activate" then true
          else pyStartsWith event.type "object:state-changed:active"
                 && intTruthy event.detail1 && env.isFrame event.source
        if windowActivation then
          if event.source != env.activeWindow then (true, "Window activation")
          else (false, "Window activation for already-active window")
        else if pyStartsWith event.type "focus"
            || (pyStartsWith event.type "object:state-changed:focused"
                && intTruthy event.detail1) then
          (true, "Event source claimed focus.")
        else if pyStartsWith event.type "object:state-changed:selected"
            && intTruthy event.detail1 && env.isMenu event.source
            && env.isFocusable event.source then
          (true, "Selection change in focused menu")
        else if pyStartsWith event.type "object:state-changed:showing"
            && env.isPanel event.source && env.isModal event.source then
          (true, "Modal panel is showing.")
        else (false, "No reason found to activate a different script.")

/-- The part of `_processObjectEvent` after the flood handling: the
defunct-descendant selection-changed guard, script resolution, the
activation decision, and the handler invocation.  Calls into the external
script manager do not change `EMState`; the Bool records whether
`script.processObjectEvent` was reached. -/
def processAfterFlood (env : Env) (s : EMState) (event : Event) : EMState × Bool :=
  if pyStartsWith event.type "object:selection-changed"
      && s.parentsOfDefunctDescendants.contains event.source then (s, false)
  else
    match _getScriptForEvent env event with
    | none => (s, false)
    | some sc =>
      let _ := _isActivatableEvent env event (some sc)
      (s, true)

/-- `EventManager._processObjectEvent` restricted to its effect on the
manager's own state. -/
def _processObjectEvent (env : Env) (s : EMState) (event : Event) : EMState × Bool :=
  if pyStartsWith event.type "object:children-changed:remove"
      && event.source == env.desktop then (s, false)
  else if env.isDead event.source || env.isDefunct event.source then (s, false)
  else if env.isIconified event.source then (s, false)
  else if _inFlood s then
    if !(_processDuringFlood env event) then (s, false)
    else if _prioritizeDuringFlood env event then
      processAfterFlood env
        { s with eventQueue := _pruneEventsDuringFlood env s.eventQueue } event
    else processAfterFlood env s event
  else processAfterFlood env s event

/-- The outcome of one `_dequeue` call: the updated state, the envelope
taken from the queue (if any), and whether it was handed to a script. -/
structure DequeueOut where
  state : EMState
  popped : Option Event
  delivered : Bool

/-- `EventManager._dequeue`: takes one envelope off the head of the queue,
processes it, runs the suspension-gate bookkeeping, and releases the idle
token when the queue is empty. -/
def _dequeue (env : Env) (s : EMState) : DequeueOut :=
  match s.eventQueue with
  | [] => { state := { s with gidleScheduled := false }, popped := none,
            delivered := false }
  | e :: rest =>
    let s1 := { s with eventQueue := rest }
    if e.kind == EventKind.keyboard || e.kind == EventKind.braille then
      let s2 := if s1.eventQueue.isEmpty then { s1 with gidleScheduled := false }
                else s1
      { state := s2, popped := some e, delivered := false }
    else
      let pr := _processObjectEvent env s1 e
      let s2 := pr.1
      let s3 :=
        if _didSuspendEventsFor s2 e then _unsuspendEvents s2 e false
        else if s2.eventsSuspended && _shouldUnsuspendEventsFor env e then
          _unsuspendEvents s2 e true
        else s2
      let s4 := if s3.eventQueue.isEmpty then { s3 with gidleScheduled := false }
                else s3
      { state := s4, popped := some e, delivered := pr.2 }

/-- `_synchronousToolkits`. -/
def synchronousToolkits : List String := ["VCL"]

/-- The outcome of one `_enqueue` call: the updated state, whether the
envelope was put on the queue, whether a drain step (`_dequeue`) was run
inline on the producer's call stack, and what that inline drain popped and
delivered. -/
structure EnqueueOut where
  state : EMState
  enqueued : Bool
  syncDrain : Bool
  popped : Option Event
  delivered : Bool

/-- `EventManager._enqueue`: filter (with its exception absorbed into
`ignore = True`), flood pruning, suspension trigger, the per-event
async/sync decision, `_addToQueue`, and the inline `_dequeue` in
synchronous mode. -/
def _enqueue (env : Env) (s : EMState) (e : Event) : EnqueueOut :=
  let isObjectEvent := !(e.kind == EventKind.keyboard || e.kind == EventKind.braille)
  let ign : Bool × EMState :=
    if isObjectEvent then
      match _ignore env s e with
      | .ok r => r
      | .error _ => (true, s)
    else (false, s)
  if ign.1 then
    { state := ign.2, enqueued := false, syncDrain := false, popped := none,
      delivered := false }
  else
    let s1 := ign.2
    let s2 :=
      if _inFlood s1 && _prioritizeDuringFlood env e then
        { s1 with eventQueue := _pruneEventsDuringFlood env s1.eventQueue }
      else s1
    let s3 := if isObjectEvent && _shouldSuspendEventsFor env e then
                _suspendEvents s2 e
              else s2
    let asyncMode :=
      if isObjectEvent then
        if e.kind == EventKind.mouseButton then true
        else if synchronousToolkits.contains (env.toolkitName e.source) then false
        else if pyStartsWith e.type "object:children-changed" then
          env.isTable e.source
        else if env.isNotification e.source then false
        else s3.asyncMode
      else s3.asyncMode
    let s4 :=
      { s3 with
        eventQueue := s3.eventQueue ++ [e],
        gidleScheduled := if asyncMode && !s3.gidleScheduled then true
                          else s3.gidleScheduled }
    if asyncMode then
      { state := s4, enqueued := true, syncDrain := false, popped := none,
        delivered := false }
    else
      let d := _dequeue env s4
      { state := d.state, enqueued := true, syncDrain := true, popped := d.popped,
        delivered := d.delivered }

/-- Witness data: a subscription table with every category at count 1. -/
def countsOneW : Counts := fun _ => some 1

/-- Witness data: an active manager with an empty queue, not suspended,
holding the default ignored-category list. -/
def s0W : EMState :=
  { active := true, eventQueue := [], eventsSuspended := false,
    eventsTriggeringSuspension := [],
    ignoredEvents := ["object:bounds-changed", "object:state-changed:defunct",
                      "object:property-change:accessible-parent"],
    parentsOfDefunctDescendants := [], scriptListenerCounts := countsOneW,
    asyncMode := true, gidleScheduled := false }

/-- Witness data: a window:activate envelope for frame 1. -/
def evAW : Event :=
  { kind := .objectEvent, type := "window:activate", source := some 1,
    detail1 := 0, detail2 := 0, any_data := none }

/-- Witness data: a window:activate envelope for frame 2. -/
def evBW : Event :=
  { kind := .objectEvent, type := "window:activate", source := some 2,
    detail1 := 0, detail2 := 0, any_data := none }

/-- Witness data: a benign environment — everything alive, role `other`,
no focus, no scripts, empty names. -/
def envW : Env :=
  { locusOfFocus := none, activeWindow := none, activeScript := none,
    desktop := none, appOf := fun _ => none, nameOf := fun _ => "",
    toolkitName := fun _ => "", isDead := fun _ => false,
    isDefunct := fun _ => false, hasNoState := fun _ => false,
    isFocused := fun _ => false, isFrame := fun _ => false,
    isWindow := fun _ => false, isDocument := fun _ => false,
    isTable := fun _ => false, isNotification := fun _ => false,
    isMenu := fun _ => false, isFocusable := fun _ => false,
    isPanel := fun _ => false, isModal := fun _ => false,
    isIconified := fun _ => false, managesDescendants := fun _ => false,
    isTableRelated := fun _ => false, isTreeRelated := fun _ => false,
    isSection := fun _ => false, isImage := fun _ => false,
    isMenuItem := fun _ => false, roleOf := fun _ => Role.other,
    getScript := fun _ _ _ => none, scriptForMouse := fun _ => none,
    scriptIsActivatable := fun _ _ => true, scriptForce := fun _ _ => false,
    scriptApp := fun _ => none }

/-- Witness data: a high-volume filler envelope used to build long queues. -/
def fillerEvW : Event :=
  { kind := .objectEvent, type := "object:text-changed:insert", source := some 3,
    detail1 := 0, detail2 := 0, any_data := some (.str "x") }

/-- Witness data: a 101-element queue (deluge regime). -/
def sDelugeW : EMState := { s0W with eventQueue := List.replicate 101 fillerEvW }

/-- Witness data: a 51-element queue (flood regime). -/
def sFloodW : EMState := { s0W with eventQueue := List.replicate 51 fillerEvW }

/-- Witness data: a caret-moved envelope from a non-focus source. -/
def caretEvW : Event :=
  { kind := .objectEvent, type := "object:text-caret-moved", source := some 4,
    detail1 := 0, detail2 := 0, any_data := none }

/-- Witness data: a focus-gained envelope with affirmative detail flag. -/
def focusEvW : Event :=
  { kind := .objectEvent, type := "object:state-changed:focused", source := some 5,
    detail1 := 1, detail2 := 0, any_data := none }

/-- Witness data: state with one pending window:activate envelope. -/
def sDupWinW : EMState := { s0W with eventQueue := [evAW] }

/-- Witness data: state with one pending caret-moved envelope. -/
def sDupTextW : EMState := { s0W with eventQueue := [caretEvW] }

/-- Witness data: a text-changed envelope whose payload is an accessible
object, so the embedded-object membership test raises. -/
def textObjEvW : Event :=
  { kind := .objectEvent, type := "object:text-changed:insert", source := some 6,
    detail1 := 0, detail2 := 0, any_data := some (.obj 9) }

/-- Witness data: an environment whose toolkit is VCL (synchronous) and
which resolves every event to script 7. -/
def envVclW : Env :=
  { envW with toolkitName := fun _ => "VCL", getScript := fun _ _ _ => some 7 }

/-- Witness data: an older pending envelope. -/
def oldEvW : Event :=
  { kind := .objectEvent, type := "object:text-caret-moved", source := some 8,
    detail1 := 0, detail2 := 0, any_data := none }

/-- Witness data: a focus-gained envelope from a VCL source. -/
def vclEvW : Event :=
  { kind := .objectEvent, type := "object:state-changed:focused", source := some 9,
    detail1 := 1, detail2 := 0, any_data := none }

/-- Witness data: state with the older envelope already queued. -/
def sVclW : EMState := { s0W with eventQueue := [oldEvW] }

/-- Witness data: an environment with script 7 resolved and already
active, whose force-activation rule always answers yes. -/
def envActiveW : Env :=
  { envW with activeScript := some 7, getScript := fun _ _ _ => some 7,
              scriptForce := fun _ _ => true }

/-- Witness data: an envelope without a source object. -/
def evNoSrcW : Event :=
  { kind := .objectEvent, type := "object:state-changed:focused", source := none,
    detail1 := 1, detail2 := 0, any_data := none }

/-- Witness data: a suspended state triggered by `evAW`, with a pending
focus-gained envelope that is not itself a trigger. -/
def sSuspW : EMState :=
  { s0W with eventQueue := [focusEvW], eventsSuspended := true,
             eventsTriggeringSuspension := [evAW] }

/-- Pointwise effect of `registerListener` on the count of its own key. -/
def registerEffect (v : Option Int) : Option Int :=
  match v with
  | none => some 1
  | some n => some (n + 1)

/-- Pointwise effect of `deregisterListener` on the count of its own key. -/
def deregisterEffect (v : Option Int) : Option Int :=
  match v with
  | none => none
  | some n => if n - 1 = 0 then none else some (n - 1)

/-! ### Helper lemmas -/

theorem pyStartsWith_iff {s p : String} : pyStartsWith s p = true ↔ p.data <+: s.data := by
  simp [pyStartsWith, List.isPrefixOf_iff_prefix]

theorem pyStartsWith_excl {s p q : String} (h : pyStartsWith s p = true)
    (hpq : ¬ p.data <+: q.data) (hqp : ¬ q.data <+: p.data) :
    pyStartsWith s q = false := by
  by_contra hq
  rw [Bool.not_eq_false, pyStartsWith_iff] at hq
  rw [pyStartsWith_iff] at h
  rcases List.prefix_or_prefix_of_prefix h hq with hc | hc
  · exact hpq hc
  · exact hqp hc

theorem registerListener_apply (c : Counts) (t k : String) :
    (registerListener c t).1 k = if k = t then registerEffect (c t) else c k := by
  unfold registerListener registerEffect updateFn
  cases c t <;> simp

theorem deregisterListener_apply (c : Counts) (t k : String) :
    (deregisterListener c t).1 k = if k = t then deregisterEffect (c t) else c k := by
  rcases h : c t with _ | n
  · simp only [deregisterListener, deregisterEffect, h]
    by_cases hkt : k = t
    · rw [if_pos hkt, hkt, h]
    · rw [if_neg hkt]
  · simp only [deregisterListener, deregisterEffect, h]
    by_cases h1 : n - 1 = 0 <;> simp [h1, updateFn]

theorem deregAll_apply_notMem {ts : List String} {k : String} (h : k ∉ ts) (c : Counts) :
    deregAll c ts k = c k := by
  induction ts generalizing c with
  | nil => rfl
  | cons a rest ih =>
    simp only [deregAll, List.foldl_cons]
    rw [List.mem_cons, not_or] at h
    rw [show (List.foldl (fun acc t => (deregisterListener acc t).1) (deregisterListener c a).1 rest)
          = deregAll (deregisterListener c a).1 rest from rfl,
        ih h.2, deregisterListener_apply, if_neg h.1]

theorem regAll_apply_notMem {ts : List String} {k : String} (h : k ∉ ts) (c : Counts) :
    regAll c ts k = c k := by
  induction ts generalizing c with
  | nil => rfl
  | cons a rest ih =>
    simp only [regAll, List.foldl_cons]
    rw [List.mem_cons, not_or] at h
    rw [show (List.foldl (fun acc t => (registerListener acc t).1) (registerListener c a).1 rest)
          = regAll (registerListener c a).1 rest from rfl,
        ih h.2, registerListener_apply, if_neg h.1]

theorem deregAll_apply_mem {ts : List String} (hnd : ts.Nodup) {k : String}
    (hk : k ∈ ts) (c : Counts) : deregAll c ts k = deregisterEffect (c k) := by
  induction ts generalizing c with
  | nil => cases hk
  | cons a rest ih =>
    simp only [deregAll, List.foldl_cons]
    rw [show (List.foldl (fun acc t => (deregisterListener acc t).1) (deregisterListener c a).1 rest)
          = deregAll (deregisterListener c a).1 rest from rfl]
    rcases List.mem_cons.mp hk with rfl | hmem
    · rw [deregAll_apply_notMem (List.nodup_cons.mp hnd).1,
          deregisterListener_apply, if_pos rfl]
    · rw [ih (List.nodup_cons.mp hnd).2 hmem, deregisterListener_apply,
          if_neg (fun (hek : k = a) => (List.nodup_cons.mp hnd).1 (hek ▸ hmem))]

theorem regAll_apply_mem {ts : List String} (hnd : ts.Nodup) {k : String}
    (hk : k ∈ ts) (c : Counts) : regAll c ts k = registerEffect (c k) := by
  induction ts generalizing c with
  | nil => cases hk
  | cons a rest ih =>
    simp only [regAll, List.foldl_cons]
    rw [show (List.foldl (fun acc t => (registerListener acc t).1) (registerListener c a).1 rest)
          = regAll (registerListener c a).1 rest from rfl]
    rcases List.mem_cons.mp hk with rfl | hmem
    · rw [regAll_apply_notMem (List.nodup_cons.mp hnd).1,
          registerListener_apply, if_pos rfl]
    · rw [ih (List.nodup_cons.mp hnd).2 hmem, registerListener_apply,
          if_neg (fun (hek : k = a) => (List.nodup_cons.mp hnd).1 (hek ▸ hmem))]

theorem regAll_deregAll_restore {c : Counts} {ts : List String} (hnd : ts.Nodup)
    (h : ∀ t ∈ ts, ∃ n : Int, c t = some n ∧ 1 ≤ n) :
    regAll (deregAll c ts) ts = c := by
  funext k
  by_cases hk : k ∈ ts
  · rw [regAll_apply_mem hnd hk, deregAll_apply_mem hnd hk]
    obtain ⟨n, hn, hn1⟩ := h k hk
    rw [hn]
    unfold deregisterEffect
    by_cases h1 : n - 1 = 0
    · simp only [if_pos h1, registerEffect, Option.some.injEq]
      omega
    · simp only [if_neg h1, registerEffect, Option.some.injEq]
      omega
  · rw [regAll_apply_notMem hk, deregAll_apply_notMem hk]

theorem suspendableEvents_nodup : suspendableEvents.Nodup := by decide

/-! ### C7: subscription reference counting -/

/-- C7: the subscription table maps categories to positive reference
counts.  `registerListener` increments the count of its category and
performs the external bus subscription exactly on the transition from
absent to count 1; `deregisterListener` decrements the count, and exactly
when the count reaches zero the entry is removed from the table and the
external bus unsubscription is performed; other categories are untouched,
and positivity of all counts is preserved by both operations. -/
theorem C7_subscription_refcount (c : Counts) (t : String) :
    (c t = none →
        (registerListener c t).1 t = some 1
          ∧ (registerListener c t).2 = some (BusAction.subscribe t)
          ∧ deregisterListener c t = (c, none))
      ∧ (∀ n : Int, c t = some n →
          (registerListener c t).1 t = some (n + 1)
            ∧ (registerListener c t).2 = none)
      ∧ (c t = some 1 →
          (deregisterListener c t).1 t = none
            ∧ (deregisterListener c t).2 = some (BusAction.unsubscribe t))
      ∧ (∀ n : Int, c t = some n → 1 < n →
          (deregisterListener c t).1 t = some (n - 1)
            ∧ (deregisterListener c t).2 = none)
      ∧ (∀ k, k ≠ t →
          (registerListener c t).1 k = c k ∧ (deregisterListener c t).1 k = c k)
      ∧ ((∀ k n, c k = some n → 1 ≤ n) →
          (∀ k n, (registerListener c t).1 k = some n → 1 ≤ n)
            ∧ (∀ k n, (deregisterListener c t).1 k = some n → 1 ≤ n)) := by
  refine ⟨?_, ?_, ?_, ?_, ?_, ?_⟩
  · intro h
    refine ⟨?_, ?_, ?_⟩ <;> simp [registerListener, deregisterListener, h, updateFn]
  · intro n h
    constructor <;> simp [registerListener, h, updateFn]
  · intro h
    constructor <;> simp [deregisterListener, h, updateFn]
  · intro n h h1
    have h2 : ¬ (n - 1 = 0) := by omega
    constructor <;> simp [deregisterListener, h, h2, updateFn]
  · intro k hk
    rw [registerListener_apply, deregisterListener_apply, if_neg hk, if_neg hk]
    exact ⟨rfl, rfl⟩
  · intro hpos
    constructor
    · intro k n hkn
      rw [registerListener_apply] at hkn
      by_cases hkt : k = t
      · rw [if_pos hkt] at hkn
        rcases hct : c t with _ | m <;> rw [hct] at hkn <;>
          simp only [registerEffect, Option.some.injEq] at hkn
        · omega
        · have := hpos t m hct
          omega
      · rw [if_neg hkt] at hkn
        exact hpos k n hkn
    · intro k n hkn
      rw [deregisterListener_apply] at hkn
      by_cases hkt : k = t
      · rw [if_pos hkt] at hkn
        rcases hct : c t with _ | m <;>
          simp only [hct, deregisterEffect] at hkn
        · exact absurd hkn (by simp)
        · split at hkn
          · exact absurd hkn (by simp)
          · rw [Option.some.injEq] at hkn
            have := hpos t m hct
            omega
      · rw [if_neg hkt] at hkn
        exact hpos k n hkn

/-- Witness for C7 at a concrete table (count 1 everywhere): registering
increments to 2 with no bus action; deregistering from 1 removes the entry
and unsubscribes. -/
theorem C7_subscription_refcount_witness :
    (registerListener countsOneW "object:state-changed:showing").1
        "object:state-changed:showing" = some 2
      ∧ (registerListener countsOneW "object:state-changed:showing").2 = none
      ∧ (deregisterListener countsOneW "object:state-changed:showing").1
          "object:state-changed:showing" = none
      ∧ (deregisterListener countsOneW "object:state-changed:showing").2
          = some (BusAction.unsubscribe "object:state-changed:showing") := by
  have h := C7_subscription_refcount countsOneW "object:state-changed:showing"
  have hr := h.2.1 1 rfl
  have hd := h.2.2.1 rfl
  exact ⟨hr.1, hr.2, hd.1, hd.2⟩

/-! ### C4: overlapping suspension triggers -/

theorem unsuspend_nonforced_only_when_empty (s : EMState) (tr : Event)
    (hsus : s.eventsSuspended = true)
    (hres : (_unsuspendEvents s tr false).eventsSuspended = false) :
    (_unsuspendEvents s tr false).eventsTriggeringSuspension = [] := by
  unfold _unsuspendEvents at hres ⊢
  by_cases htr : s.eventsTriggeringSuspension.contains tr
  · simp only [htr, if_true] at hres ⊢
    by_cases hL : s.eventsTriggeringSuspension.erase tr = []
    · simp [hsus, hL]
    · simp [hsus, hL, List.isEmpty_iff] at hres
  · simp only [htr, if_false] at hres ⊢
    by_cases hL : s.eventsTriggeringSuspension = []
    · simp [hsus, hL]
    · simp [hsus, hL, List.isEmpty_iff] at hres

/-- C4: the suspension state machine with two overlapping triggers.
Entering suspension for trigger A deregisters the suspendable categories;
entering again for a different trigger B changes nothing further; a
non-forced unsuspension clearing only B leaves the system suspended with
the subscription table untouched; a subsequent unsuspension clearing A
resumes it and re-registers the suspendable categories, restoring the
table; and a non-forced resumption happens only when the trigger set
becomes empty. -/
theorem C4_suspension_multitrigger (s0 s1 s2 s3 s4 : EMState) (A B : Event)
    (hAB : A ≠ B)
    (hsusp : s0.eventsSuspended = false)
    (htrig : s0.eventsTriggeringSuspension = [])
    (hcnt : ∀ t ∈ suspendableEvents,
        ∃ n : Int, s0.scriptListenerCounts t = some n ∧ 1 ≤ n)
    (hs1 : s1 = _suspendEvents s0 A)
    (hs2 : s2 = _suspendEvents s1 B)
    (hs3 : s3 = _unsuspendEvents s2 B false)
    (hs4 : s4 = _unsuspendEvents s3 A false) :
    s1.eventsSuspended = true
      ∧ s1.scriptListenerCounts = deregAll s0.scriptListenerCounts suspendableEvents
      ∧ s2.eventsSuspended = true
      ∧ s2.scriptListenerCounts = s1.scriptListenerCounts
      ∧ s3.eventsSuspended = true
      ∧ s3.scriptListenerCounts = s1.scriptListenerCounts
      ∧ s3.eventsTriggeringSuspension = [A]
      ∧ s4.eventsSuspended = false
      ∧ s4.scriptListenerCounts = s0.scriptListenerCounts
      ∧ s4.eventsTriggeringSuspension = []
      ∧ (∀ (s : EMState) (tr : Event), s.eventsSuspended = true →
          (_unsuspendEvents s tr false).eventsSuspended = false →
          (_unsuspendEvents s tr false).eventsTriggeringSuspension = []) := by
  have hBA : (A == B) = false := by
    simp only [beq_eq_false_iff_ne, ne_eq]
    exact hAB
  have e1 : s1 = { s0 with
      eventsTriggeringSuspension := [A],
      scriptListenerCounts := deregAll s0.scriptListenerCounts suspendableEvents,
      eventsSuspended := true } := by
    rw [hs1]
    simp [_suspendEvents, hsusp, htrig]
  have e2 : s2 = { s0 with
      eventsTriggeringSuspension := [A, B],
      scriptListenerCounts := deregAll s0.scriptListenerCounts suspendableEvents,
      eventsSuspended := true } := by
    rw [hs2, e1]
    simp [_suspendEvents]
  have herase : [A, B].erase B = [A] := by
    rw [List.erase_cons_tail, List.erase_cons_head]
    simp [hBA]
  have e3 : s3 = { s0 with
      eventsTriggeringSuspension := [A],
      scriptListenerCounts := deregAll s0.scriptListenerCounts suspendableEvents,
      eventsSuspended := true } := by
    rw [hs3, e2]
    simp [_unsuspendEvents, herase]
  have e4 : s4 = { s0 with
      eventsTriggeringSuspension := [],
      scriptListenerCounts :=
        regAll (deregAll s0.scriptListenerCounts suspendableEvents) suspendableEvents,
      eventsSuspended := false } := by
    rw [hs4, e3]
    simp [_unsuspendEvents]
  have hrestore :
      regAll (deregAll s0.scriptListenerCounts suspendableEvents) suspendableEvents
        = s0.scriptListenerCounts :=
    regAll_deregAll_restore suspendableEvents_nodup hcnt
  exact ⟨by rw [e1], by rw [e1], by rw [e2], by rw [e2, e1], by rw [e3], by rw [e3, e1],
         by rw [e3], by rw [e4], by rw [e4]; exact hrestore, by rw [e4],
         fun s tr h1 h2 => unsuspend_nonforced_only_when_empty s tr h1 h2⟩

/-- Witness for C4: two distinct window:activate triggers on a concrete
initial state; after clearing only the second the system is still
suspended, after clearing the first it resumes with the table restored. -/
theorem C4_suspension_multitrigger_witness :
    (_suspendEvents (_suspendEvents s0W evAW) evBW).eventsSuspended = true
      ∧ (_unsuspendEvents (_suspendEvents (_suspendEvents s0W evAW) evBW) evBW
          false).eventsSuspended = true
      ∧ (_unsuspendEvents (_unsuspendEvents (_suspendEvents (_suspendEvents s0W evAW)
          evBW) evBW false) evAW false).eventsSuspended = false
      ∧ (_unsuspendEvents (_unsuspendEvents (_suspendEvents (_suspendEvents s0W evAW)
          evBW) evBW false) evAW false).scriptListenerCounts
          = s0W.scriptListenerCounts := by
  have h := C4_suspension_multitrigger s0W (_suspendEvents s0W evAW)
      (_suspendEvents (_suspendEvents s0W evAW) evBW)
      (_unsuspendEvents (_suspendEvents (_suspendEvents s0W evAW) evBW) evBW false)
      (_unsuspendEvents (_unsuspendEvents (_suspendEvents (_suspendEvents s0W evAW)
        evBW) evBW false) evAW false)
      evAW evBW (by decide) rfl rfl (fun t _ => ⟨1, rfl, le_refl 1⟩) rfl rfl rfl rfl
  exact ⟨h.2.2.1, h.2.2.2.2.1, h.2.2.2.2.2.2.2.1, h.2.2.2.2.2.2.2.2.1⟩

/-! ### C5: the window / mouse:button allow-list -/

/-- C5: an envelope whose category begins with "window" or "mouse:button"
is never ignored when the pipeline is active and no globally-ignored
category prefix matches: `_ignore` returns false for every state and
environment — in particular pending exact duplicates, deluge suppression
and every later role/state rule are short-circuited (the state, the queue
and the environment are universally quantified here). -/
theorem C5_allowlist_never_ignored (env : Env) (s : EMState) (e : Event)
    (hact : s.active = true)
    (hign : s.ignoredEvents.any (fun p => pyStartsWith e.type p) = false)
    (hpre : pyStartsWith e.type "window" = true
              ∨ pyStartsWith e.type "mouse:button" = true) :
    _ignore env s e = .ok (false, s) := by
  have hccr : pyStartsWith e.type "object:children-changed:remove" = false := by
    rcases hpre with h | h
    · exact pyStartsWith_excl h (by decide) (by decide)
    · exact pyStartsWith_excl h (by decide) (by decide)
  rcases hpre with h | h
  · simp [_ignore, hact, hign, hccr, h]
  · have hwin : pyStartsWith e.type "window" = false :=
      pyStartsWith_excl h (by decide) (by decide)
    simp [_ignore, hact, hign, hccr, h, hwin]

/-- Witness for C5: a window:activate envelope in the presence of the
default globally-ignored prefixes is not ignored. -/
theorem C5_allowlist_never_ignored_witness :
    s0W.active = true
      ∧ s0W.ignoredEvents.any (fun p => pyStartsWith evAW.type p) = false
      ∧ pyStartsWith evAW.type "window" = true
      ∧ _ignore envW s0W evAW = .ok (false, s0W) :=
  ⟨rfl, by decide, by decide,
   C5_allowlist_never_ignored envW s0W evAW rfl (by decide) (Or.inl (by decide))⟩

/-! ### C2: deluge suppression -/

theorem highVolume_not_allowlisted {t : String} (h : t ∈ highVolumeEventTypes) :
    pyStartsWith t "window" = false ∧ pyStartsWith t "mouse:button" = false := by
  fin_cases h <;> exact ⟨by decide, by decide⟩

theorem ignoreDuringDeluge_of_highVolume (env : Env) (e : Event)
    (hvol : e.type ∈ highVolumeEventTypes) (hfoc : e.source ≠ env.locusOfFocus) :
    _ignoreDuringDeluge env e = true := by
  unfold _ignoreDuringDeluge _eventSourceIsDead
  by_cases hd : env.isDead e.source
  · simp [hd]
  · have hm : highVolumeEventTypes.contains e.type = true := by
      simpa [List.elem_iff] using hvol
    simp [hd, hm, hfoc, hvol]

/-- C2: during a deluge (queue length above 100) a high-volume-category
envelope whose source is not the locus of focus is ignored: `_ignore`
returns true, and the envelope is neither enqueued nor delivered — the
enqueue leaves the state unchanged and runs no drain. -/
theorem C2_deluge_suppression (env : Env) (s : EMState) (e : Event)
    (hk : e.kind = EventKind.objectEvent)
    (hvol : e.type ∈ highVolumeEventTypes)
    (hfoc : e.source ≠ env.locusOfFocus)
    (hdel : _inDeluge s = true) :
    _ignore env s e = .ok (true, s)
      ∧ (_enqueue env s e).state = s
      ∧ (_enqueue env s e).enqueued = false
      ∧ (_enqueue env s e).syncDrain = false := by
  have hwm := highVolume_not_allowlisted hvol
  have hidd := ignoreDuringDeluge_of_highVolume env e hvol hfoc
  have hign : _ignore env s e = .ok (true, s) := by
    unfold _ignore
    rw [hwm.1, hwm.2, hdel, hidd]
    simp only [Bool.and_self, if_true, Bool.false_eq_true, if_false, ite_self]
  have henq : _enqueue env s e
      = { state := s, enqueued := false, syncDrain := false, popped := none,
          delivered := false } := by
    unfold _enqueue
    simp [hk, hign]
  exact ⟨hign, by rw [henq], by rw [henq], by rw [henq]⟩

/-- Witness for C2: a caret-moved envelope from a non-focus source with
101 pending envelopes is ignored and not enqueued. -/
theorem C2_deluge_suppression_witness :
    caretEvW.type ∈ highVolumeEventTypes
      ∧ caretEvW.source ≠ envW.locusOfFocus
      ∧ _inDeluge sDelugeW = true
      ∧ _ignore envW sDelugeW caretEvW = .ok (true, sDelugeW)
      ∧ (_enqueue envW sDelugeW caretEvW).enqueued = false := by
  have h := C2_deluge_suppression envW sDelugeW caretEvW rfl (by decide) (by decide)
    (by decide)
  exact ⟨by decide, by decide, by decide, h.1, h.2.2.1⟩

/-! ### C3: dedupe idempotence (corrected) -/

/-- C3 counterexample: for the allow-listed category `window:activate` the
claim fails.  With an exact duplicate already pending and no flood, the
duplicate detector does report a duplicate, yet `_ignore` returns false —
the allow-list rule short-circuits the duplicate check — so the second
copy is enqueued and both identical envelopes are pending, each to be
delivered: the handler is not invoked exactly once. -/
theorem C3_dedupe_counterexample :
    isSame evAW evAW = true
      ∧ _inFlood sDupWinW = false
      ∧ _isDuplicateEvent envW sDupWinW evAW = true
      ∧ _ignore envW sDupWinW evAW = .ok (false, sDupWinW)
      ∧ (_enqueue envW sDupWinW evAW).enqueued = true
      ∧ (_enqueue envW sDupWinW evAW).state.eventQueue = [evAW, evAW] :=
  ⟨by decide, by decide, by decide, rfl, by decide, by decide⟩

/-- C3 (amended): for every event category outside the window /
mouse:button allow-list, enqueueing an exact duplicate (same category,
source, detail1, detail2, payload) of a pending envelope while the system
is not in flood ignores the second copy: the duplicate detector fires,
`_ignore` returns true, the state is unchanged and nothing is enqueued, so
only the first copy is delivered. -/
theorem C3_dedupe_amended (env : Env) (s : EMState) (e x : Event)
    (hk : e.kind = EventKind.objectEvent)
    (hwin : pyStartsWith e.type "window" = false)
    (hmouse : pyStartsWith e.type "mouse:button" = false)
    (hx : x ∈ s.eventQueue) (hsame : isSame x e = true)
    (hflood : _inFlood s = false) :
    _isDuplicateEvent env s e = true
      ∧ _ignore env s e = .ok (true, s)
      ∧ (_enqueue env s e).state = s
      ∧ (_enqueue env s e).enqueued = false := by
  have hdup : _isDuplicateEvent env s e = true := by
    unfold _isDuplicateEvent
    rw [hflood]
    simp only [Bool.false_and, Bool.false_eq_true, if_false]
    exact List.any_eq_true.mpr ⟨x, hx, hsame⟩
  have hign : _ignore env s e = .ok (true, s) := by
    unfold _ignore
    rw [hwin, hmouse, hdup]
    simp only [if_true, Bool.false_eq_true, if_false, ite_self]
  have henq : _enqueue env s e
      = { state := s, enqueued := false, syncDrain := false, popped := none,
          delivered := false } := by
    unfold _enqueue
    simp [hk, hign]
  exact ⟨hdup, hign, by rw [henq], by rw [henq]⟩

/-- Witness for the amended C3: a duplicate caret-moved envelope is
detected and ignored while the original is pending. -/
theorem C3_dedupe_amended_witness :
    _isDuplicateEvent envW sDupTextW caretEvW = true
      ∧ _ignore envW sDupTextW caretEvW = .ok (true, sDupTextW)
      ∧ (_enqueue envW sDupTextW caretEvW).enqueued = false := by
  have h := C3_dedupe_amended envW sDupTextW caretEvW caretEvW rfl (by decide)
    (by decide) (by decide) (by decide) (by decide)
  exact ⟨h.1, h.2.1, h.2.2.2⟩

/-! ### C8: filter exceptions are absorbed -/

/-- C8: if the filter/flow-control logic raises while evaluating an
envelope at enqueue time, the envelope is treated as ignored — the state
is unchanged, nothing is enqueued, no drain runs — and the exception does
not propagate to the producer (`_enqueue` is a total function; the
`.error` of `_ignore` is consumed inside it). -/
theorem C8_filter_exception_absorbed (env : Env) (s : EMState) (e : Event)
    (hk : (e.kind == EventKind.keyboard || e.kind == EventKind.braille) = false)
    (herr : _ignore env s e = .error ()) :
    _enqueue env s e
      = { state := s, enqueued := false, syncDrain := false, popped := none,
          delivered := false } := by
  unfold _enqueue
  simp [hk, herr]

/-- Witness for C8: a text-changed envelope with an object payload makes
the filter raise; the enqueue absorbs it and ignores the envelope. -/
theorem C8_filter_exception_absorbed_witness :
    _ignore envW s0W textObjEvW = .error ()
      ∧ _enqueue envW s0W textObjEvW
          = { state := s0W, enqueued := false, syncDrain := false, popped := none,
              delivered := false } :=
  ⟨rfl, C8_filter_exception_absorbed envW s0W textObjEvW rfl rfl⟩

/-! ### C1: flood pruning -/

theorem suspendEvents_preserves (s : EMState) (tr : Event) :
    (_suspendEvents s tr).eventQueue = s.eventQueue
      ∧ (_suspendEvents s tr).asyncMode = s.asyncMode
      ∧ (_suspendEvents s tr).gidleScheduled = s.gidleScheduled := by
  unfold _suspendEvents
  by_cases h : s.eventsSuspended <;> simp [h]

theorem processDuringFlood_char (env : Env) (x : Event)
    (h : _processDuringFlood env x = true) :
    env.isDead x.source = false
      ∧ (x.type ∉ highVolumeEventTypes ∨ x.source = env.locusOfFocus) := by
  unfold _processDuringFlood _eventSourceIsDead at h
  by_cases hd : env.isDead x.source
  · simp [hd] at h
  · refine ⟨by simpa using hd, ?_⟩
    by_cases hm : highVolumeEventTypes.contains x.type
    · simp [hd, hm] at h
      exact h
    · refine Or.inl ?_
      simpa [List.elem_iff] using hm

/-- C1: when a prioritized envelope passes the filter during flood, the
pending queue is pruned before the envelope is appended: the new queue is
exactly the `_processDuringFlood` filter of the old queue followed by the
new envelope, every surviving old envelope satisfies the
process-during-flood predicate (its source is not dead, and its category
is outside the high-volume set or its source is the locus of focus), and
the survivors keep their relative order (the pruned queue is a sublist of
the old queue).  The async-mode hypotheses pin the enqueue to the
asynchronous path, so no inline drain alters the queue afterwards. -/
theorem C1_flood_prune (env : Env) (s s1 : EMState) (e : Event)
    (hk : e.kind = EventKind.objectEvent)
    (hign : _ignore env s e = .ok (false, s1))
    (hflood : _inFlood s1 = true)
    (hprio : _prioritizeDuringFlood env e = true)
    (htk : synchronousToolkits.contains (env.toolkitName e.source) = false)
    (hcc : pyStartsWith e.type "object:children-changed" = false)
    (hnot : env.isNotification e.source = false)
    (hasync : s1.asyncMode = true) :
    (_enqueue env s e).state.eventQueue
        = s1.eventQueue.filter (fun x => _processDuringFlood env x) ++ [e]
      ∧ (∀ x ∈ s1.eventQueue.filter (fun x => _processDuringFlood env x),
          env.isDead x.source = false
            ∧ (x.type ∉ highVolumeEventTypes ∨ x.source = env.locusOfFocus))
      ∧ (s1.eventQueue.filter (fun x => _processDuringFlood env x)).Sublist
          s1.eventQueue := by
  refine ⟨?_, ?_, List.filter_sublist s1.eventQueue⟩
  · have htk' : env.toolkitName e.source ∉ synchronousToolkits := by
      simpa [List.elem_iff] using htk
    unfold _enqueue
    simp only [hk, hign]
    by_cases hs : _shouldSuspendEventsFor env e
    · by_cases hsu : s1.eventsSuspended <;>
        simp [hflood, hprio, hs, hsu, htk', hcc, hnot, hasync,
              _pruneEventsDuringFlood, _suspendEvents]
    · simp [hflood, hprio, hs, htk', hcc, hnot, hasync, _pruneEventsDuringFlood]
  · intro x hx
    exact processDuringFlood_char env x (List.of_mem_filter hx)

/-- Witness for C1: 51 pending high-volume envelopes and an arriving
focus-gained envelope with an affirmative flag; the prune removes all 51
and only the new envelope remains. -/
theorem C1_flood_prune_witness :
    _inFlood sFloodW = true
      ∧ _prioritizeDuringFlood envW focusEvW = true
      ∧ (_enqueue envW sFloodW focusEvW).state.eventQueue
          = sFloodW.eventQueue.filter (fun x => _processDuringFlood envW x)
              ++ [focusEvW]
      ∧ (_enqueue envW sFloodW focusEvW).state.eventQueue = [focusEvW] := by
  have h := C1_flood_prune envW sFloodW sFloodW focusEvW rfl rfl (by decide)
    (by decide) (by decide) (by decide) (by decide) rfl
  exact ⟨by decide, by decide, h.1, by decide⟩

/-! ### C9: synchronous delivery (corrected) -/

/-- C9 counterexample: with an older envelope already pending, enqueueing
an envelope from a VCL (synchronous-toolkit) source does run a drain step
inline, but that drain pops the head of the queue — the older envelope —
while the new envelope stays queued: the drain of *that* envelope does not
happen during the enqueue call, and the queue is not bypassed. -/
theorem C9_sync_counterexample :
    synchronousToolkits.contains (envVclW.toolkitName vclEvW.source) = true
      ∧ (_enqueue envVclW sVclW vclEvW).syncDrain = true
      ∧ (_enqueue envVclW sVclW vclEvW).popped = some oldEvW
      ∧ oldEvW ≠ vclEvW
      ∧ (_enqueue envVclW sVclW vclEvW).state.eventQueue = [vclEvW] :=
  ⟨by decide, by decide, by decide, by decide, by decide⟩

/-- C9 (amended): the sync/async decision is made per event at enqueue
time.  For an object envelope whose source toolkit is in the synchronous
set, the envelope is enqueued and one drain step runs immediately on the
producer's call stack; the drained envelope is the head of the queue,
which is the enqueued envelope itself exactly when the queue was empty.
For other sources in asynchronous mode no inline drain runs — the idle
callback is scheduled instead. -/
theorem C9_sync_amended (env : Env) (s s1 : EMState) (e : Event)
    (hk : e.kind = EventKind.objectEvent)
    (hign : _ignore env s e = .ok (false, s1)) :
    (synchronousToolkits.contains (env.toolkitName e.source) = true →
        (_enqueue env s e).enqueued = true
          ∧ (_enqueue env s e).syncDrain = true
          ∧ (s1.eventQueue = [] → (_enqueue env s e).popped = some e))
      ∧ (synchronousToolkits.contains (env.toolkitName e.source) = false →
          pyStartsWith e.type "object:children-changed" = false →
          env.isNotification e.source = false →
          s1.asyncMode = true →
          (_enqueue env s e).syncDrain = false
            ∧ (_enqueue env s e).state.gidleScheduled = true) := by
  constructor
  · intro htk
    have htk' : env.toolkitName e.source ∈ synchronousToolkits := by
      simpa [List.elem_iff] using htk
    refine ⟨?_, ?_, ?_⟩
    · unfold _enqueue
      simp only [hk, hign]
      by_cases hfp : (_inFlood s1 && _prioritizeDuringFlood env e) = true <;>
        by_cases hs : _shouldSuspendEventsFor env e <;>
        by_cases hsu : s1.eventsSuspended <;>
        simp [hfp, hs, hsu, htk', _suspendEvents]
    · unfold _enqueue
      simp only [hk, hign]
      by_cases hfp : (_inFlood s1 && _prioritizeDuringFlood env e) = true <;>
        by_cases hs : _shouldSuspendEventsFor env e <;>
        by_cases hsu : s1.eventsSuspended <;>
        simp [hfp, hs, hsu, htk', _suspendEvents]
    · intro hq
      have hflood : _inFlood s1 = false := by simp [_inFlood, hq]
      unfold _enqueue
      simp only [hk, hign]
      by_cases hs : _shouldSuspendEventsFor env e <;>
        by_cases hsu : s1.eventsSuspended <;>
        simp [hflood, hs, hsu, htk', hq, _suspendEvents, _dequeue, hk]
  · intro htk hcc hnot hasync
    have htk' : env.toolkitName e.source ∉ synchronousToolkits := by
      simpa [List.elem_iff] using htk
    unfold _enqueue
    simp only [hk, hign]
    by_cases hfp : (_inFlood s1 && _prioritizeDuringFlood env e) = true <;>
      by_cases hs : _shouldSuspendEventsFor env e <;>
      by_cases hsu : s1.eventsSuspended <;>
      by_cases hgi : s1.gidleScheduled <;>
      simp [hfp, hs, hsu, hgi, htk', hcc, hnot, hasync, _suspendEvents]

/-- Witness for the amended C9: enqueueing a VCL-source envelope on an
empty queue drains that very envelope inline. -/
theorem C9_sync_amended_witness :
    (_enqueue envVclW s0W vclEvW).enqueued = true
      ∧ (_enqueue envVclW s0W vclEvW).syncDrain = true
      ∧ (_enqueue envVclW s0W vclEvW).popped = some vclEvW := by
  have h := (C9_sync_amended envVclW s0W s0W vclEvW rfl rfl).1 (by decide)
  exact ⟨h.1, h.2.1, h.2.2 rfl⟩

/-! ### C6: activation decider guards -/

/-- C6: the dispatch/activation decider reports no activation when the
envelope has no source, when no handler resolves, or when the resolved
handler is already the active one — and these guards precede every
activation rule: the conclusions hold for every environment, including
those whose `scriptForce` (the handler's force-activation rule) always
answers true. -/
theorem C6_activation_guards (env : Env) (e : Event) (scriptArg : Option Script) :
    (e.source = none → (_isActivatableEvent env e scriptArg).1 = false)
      ∧ (scriptArg = none → _getScriptForEvent env e = none →
          (_isActivatableEvent env e scriptArg).1 = false)
      ∧ (∀ sc : Script,
          (match scriptArg with
           | some s0 => some s0
           | none => _getScriptForEvent env e) = some sc →
          env.activeScript = some sc →
          (_isActivatableEvent env e scriptArg).1 = false) := by
  refine ⟨?_, ?_, ?_⟩
  · intro h
    simp [_isActivatableEvent, h]
  · intro h1 h2
    by_cases hs : e.source = none
    · simp [_isActivatableEvent, hs]
    · subst h1
      simp [_isActivatableEvent, hs, h2]
  · intro sc hres hact
    by_cases hs : e.source = none
    · simp [_isActivatableEvent, hs]
    · simp [_isActivatableEvent, hs, hres, hact]

/-- Witness for C6: no-source envelope, unresolvable handler, and
already-active handler all yield "not activatable", the last even though
the handler's force-activation rule answers true. -/
theorem C6_activation_guards_witness :
    (_isActivatableEvent envActiveW evNoSrcW none).1 = false
      ∧ (_isActivatableEvent envW evAW none).1 = false
      ∧ (_isActivatableEvent envActiveW evAW none).1 = false
      ∧ envActiveW.scriptForce 7 evAW = true :=
  ⟨(C6_activation_guards envActiveW evNoSrcW none).1 rfl,
   (C6_activation_guards envW evAW none).2.1 rfl rfl,
   (C6_activation_guards envActiveW evAW none).2.2 7 rfl rfl, rfl⟩

/-! ### C10: forced unsuspension from the dequeue loop -/

theorem processAfterFlood_preserves (env : Env) (s : EMState) (e : Event) :
    (processAfterFlood env s e).1.eventsSuspended = s.eventsSuspended
      ∧ (processAfterFlood env s e).1.eventsTriggeringSuspension
          = s.eventsTriggeringSuspension
      ∧ (processAfterFlood env s e).1.scriptListenerCounts
          = s.scriptListenerCounts := by
  unfold processAfterFlood
  split
  · exact ⟨rfl, rfl, rfl⟩
  · split <;> exact ⟨rfl, rfl, rfl⟩

theorem processObjectEvent_preserves (env : Env) (s : EMState) (e : Event) :
    (_processObjectEvent env s e).1.eventsSuspended = s.eventsSuspended
      ∧ (_processObjectEvent env s e).1.eventsTriggeringSuspension
          = s.eventsTriggeringSuspension
      ∧ (_processObjectEvent env s e).1.scriptListenerCounts
          = s.scriptListenerCounts := by
  unfold _processObjectEvent
  split
  · exact ⟨rfl, rfl, rfl⟩
  split
  · exact ⟨rfl, rfl, rfl⟩
  split
  · exact ⟨rfl, rfl, rfl⟩
  split
  · split
    · exact ⟨rfl, rfl, rfl⟩
    split
    · exact processAfterFlood_preserves env _ e
    · exact processAfterFlood_preserves env s e
  · exact processAfterFlood_preserves env s e

/-- C10: if events are suspended and the dequeue loop processes an
envelope that is not itself in the trigger set but satisfies the
unsuspend predicate, a forced unsuspension runs: suspension is lifted and
the suspendable categories re-registered even though the trigger set may
be non-empty, and the triggering envelopes are left in the trigger set
unchanged. -/
theorem C10_forced_unsuspend (env : Env) (s : EMState) (e : Event)
    (rest : List Event)
    (hq : s.eventQueue = e :: rest)
    (hk : e.kind = EventKind.objectEvent)
    (hsus : s.eventsSuspended = true)
    (hnin : e ∉ s.eventsTriggeringSuspension)
    (hshld : _shouldUnsuspendEventsFor env e = true) :
    (_dequeue env s).state.eventsSuspended = false
      ∧ (_dequeue env s).state.eventsTriggeringSuspension
          = s.eventsTriggeringSuspension
      ∧ (_dequeue env s).state.scriptListenerCounts
          = regAll s.scriptListenerCounts suspendableEvents := by
  have hpres := processObjectEvent_preserves env { s with eventQueue := rest } e
  have hcont : (_processObjectEvent env { s with eventQueue := rest }
      e).1.eventsTriggeringSuspension.contains e = false := by
    rw [hpres.2.1]
    simpa [List.elem_iff] using hnin
  have hsus2 : (_processObjectEvent env { s with eventQueue := rest }
      e).1.eventsSuspended = true := by
    rw [hpres.1]
    exact hsus
  have hkk : (e.kind == EventKind.keyboard || e.kind == EventKind.braille) = false := by
    simp [hk]
  unfold _dequeue
  simp only [hq, hkk, Bool.false_eq_true, if_false, _didSuspendEventsFor, hcont,
             hsus2, hshld, Bool.and_self, if_true, _unsuspendEvents, Bool.not_true,
             Bool.and_false, Bool.not_false]
  refine ⟨?_, ?_, ?_⟩
  · split <;> rfl
  · split <;> rw [hpres.2.1]
  · split <;> rw [hpres.2.2]

/-- Witness for C10: a suspended state whose trigger was a window:activate
envelope; draining a pending focus-gained envelope forcibly unsuspends,
re-registers the suspendable categories (count back to 2 here since the
witness table never dropped), and leaves the trigger set unchanged. -/
theorem C10_forced_unsuspend_witness :
    (_dequeue envW sSuspW).state.eventsSuspended = false
      ∧ (_dequeue envW sSuspW).state.eventsTriggeringSuspension = [evAW]
      ∧ (_dequeue envW sSuspW).state.scriptListenerCounts
          = regAll sSuspW.scriptListenerCounts suspendableEvents
      ∧ (_dequeue envW sSuspW).state.scriptListenerCounts
          "object:children-changed:add" = some 2 := by
  have h := C10_forced_unsuspend envW sSuspW focusEvW [] rfl rfl rfl (by decide)
    (by decide)
  exact ⟨h.1, h.2.1, h.2.2, by decide⟩
